import Mathlib

/-
Verification of the retrieval-augmentation pipeline of the search-agent
program (src/search_agent.py, src/sys_msgs.py).

The Python program is shallowly embedded: every external effect (an
ollama.chat model call, an HTTP request, a page scrape) is represented by
an oracle value passed in explicitly.  A chat call is modelled as an
`Option String`: `some content` is the reply text the call produced,
`none` means the call raised an exception (which the Python code catches
at the site of the call).  Sequences of calls are modelled as functions
from the call index to such an outcome.
-/

namespace SearchAgent

/-- One entry of the `results` list built by `search_duckduckgo`
(a Python dict with keys `id`, `link`, `search_description`). -/
structure Candidate where
  id : Nat
  link : String
  search_description : String
deriving DecidableEq, Repr

/-- Python `str.strip()` on a character list: drop leading and trailing
whitespace characters. -/
def stripChars (l : List Char) : List Char :=
  ((l.dropWhile Char.isWhitespace).reverse.dropWhile Char.isWhitespace).reverse

/-- Python `str.strip()` with no argument (default whitespace set). -/
def pyStrip (s : String) : String := String.mk (stripChars s.toList)

/-- Python's substring test `pat in s` on strings. -/
def pyInStr (pat s : String) : Bool := decide (pat.toList <:+: s.toList)

/-- Python `str.lower()` on the ASCII range, character by character. -/
def pyLower (s : String) : String := String.mk (s.toList.map Char.toLower)

/-- `check_search_or_not` (src/search_agent.py lines 69-87) as a function of
the outcome of its single `ollama.chat` call: on a reply it answers whether
the lower-cased reply text contains `"true"`; on an exception it returns
`False`. -/
def check_search_or_not (reply : Option String) : Bool :=
  match reply with
  | some content => pyInStr "true" (pyLower content)
  | none => false

/-- `contain_data_needed` (src/search_agent.py lines 251-273) as a function of
the outcome of its single `ollama.chat` call: same parse rule as
`check_search_or_not`, `False` on an exception. -/
def contain_data_needed (reply : Option String) : Bool :=
  match reply with
  | some content => pyInStr "true" (pyLower content)
  | none => false

/-- `query_generator` (src/search_agent.py lines 89-111) as a function of the
latest user content and the outcome of its single `ollama.chat` call: the
reply text on success, the raw latest user content on an exception. -/
def query_generator (lastContent : String) (reply : Option String) : String :=
  match reply with
  | some content => content
  | none => lastContent

/-- Python `x.replace('"', '')` (src/search_agent.py line 217): replacing a
one-character pattern by the empty string removes every occurrence of that
character, i.e. filters it out. -/
def stripQuotes (s : String) : String :=
  String.mk (s.toList.filter (fun c => c ≠ '"'))

/-- The `search_query` computed at the top of `ai_search`
(src/search_agent.py line 217): `query_generator().replace('"', '')`. -/
def aiSearchQuery (lastContent : String) (reply : Option String) : String :=
  stripQuotes (query_generator lastContent reply)

/-- Digits-only string to a natural number, `none` if empty or a non-digit
occurs (the failing case raises `ValueError` in Python). -/
def digitsToNat (l : List Char) : Option Nat :=
  if l = [] then none
  else if l.all Char.isDigit then
    some (l.foldl (fun a c => a * 10 + (c.toNat - '0'.toNat)) 0)
  else none

/-- Python `int(s)` on an ASCII decimal literal: strip whitespace, optional
sign, then a non-empty run of digits; `none` models the `ValueError` raised
on any other input. -/
def pyParseInt (s : String) : Option Int :=
  match (pyStrip s).toList with
  | [] => none
  | '+' :: rest => (digitsToNat rest).map (fun n => (n : Int))
  | '-' :: rest => (digitsToNat rest).map (fun n => -(n : Int))
  | l => (digitsToNat l).map (fun n => (n : Int))

/-- The retry loop of `best_search_results` (src/search_agent.py lines
176-186).  `len` is the length of `s_results`, `oracle k` the outcome of the
chat call of attempt `k`, the first `Nat` argument the remaining attempts,
the second the number of chat calls made so far.  An attempt whose chat call
raises, or whose reply `int()` cannot parse, falls through to the next
attempt; a parsed reply `index` returns `min index (len - 1)`.  After all
attempts fail the function returns 0.  The result pairs the returned index
with the total number of chat calls made. -/
def bestLoop (len : Nat) (oracle : Nat → Option String) : Nat → Nat → Int × Nat
  | 0, calls => (0, calls)
  | n + 1, calls =>
    match (oracle calls).bind pyParseInt with
    | some index => (min index ((len : Int) - 1), calls + 1)
    | none => bestLoop len oracle n (calls + 1)

/-- `best_search_results` (src/search_agent.py lines 159-186): an empty
candidate list returns index 0 with no chat call; otherwise up to 3 chat
attempts are made via `bestLoop`.  Returns the selected index together with
the number of chat calls performed. -/
def best_search_results (s_results : List Candidate) (oracle : Nat → Option String) :
    Int × Nat :=
  if s_results = [] then (0, 0)
  else bestLoop s_results.length oracle 3 0

/-- A concrete candidate used in concrete runs. -/
def demoCand : Candidate := ⟨0, "https://example.com", "demo"⟩

theorem bestLoop_le (len : Nat) (oracle : Nat → Option String) (hlen : 1 ≤ len) :
    ∀ n calls, (bestLoop len oracle n calls).1 ≤ (len : Int) - 1 := by
  intro n
  induction n with
  | zero =>
    intro calls
    simp only [bestLoop]
    omega
  | succ m ih =>
    intro calls
    simp only [bestLoop]
    cases h : (oracle calls).bind pyParseInt with
    | none => exact ih (calls + 1)
    | some index =>
      simp only
      exact min_le_right _ _

theorem bestLoop_nonneg (len : Nat) (oracle : Nat → Option String) (hlen : 1 ≤ len)
    (hpos : ∀ k i, (oracle k).bind pyParseInt = some i → 0 ≤ i) :
    ∀ n calls, 0 ≤ (bestLoop len oracle n calls).1 := by
  intro n
  induction n with
  | zero =>
    intro calls
    simp [bestLoop]
  | succ m ih =>
    intro calls
    simp only [bestLoop]
    cases h : (oracle calls).bind pyParseInt with
    | none => exact ih (calls + 1)
    | some index =>
      simp only
      refine le_min (hpos calls index h) ?_
      omega

/-- C1 counterexample: with one candidate and a model reply of `"-1"`,
`best_search_results` returns the negative index `-1`, which does not lie in
`[0, len-1]`, refuting the claim that the parse plus the upper clamp yields
an in-bounds value for every possible model reply. -/
theorem C1_counterexample :
    ([demoCand] ≠ ([] : List Candidate)) ∧
    (best_search_results [demoCand] (fun _ => some "-1")).1 < 0 := by
  refine ⟨by decide, ?_⟩
  decide

/-- C1 (amended): for a non-empty candidate list the returned index is always
at most `len - 1`; it moreover lies in `[0, len-1]` whenever every reply the
model produces parses to a non-negative integer (in particular whenever all
attempts fail, since the fallback is 0); for an empty candidate list the
function returns index 0 having made no model call. -/
theorem C1_clamp (s_results : List Candidate) (oracle : Nat → Option String)
    (hne : s_results ≠ []) :
    (best_search_results s_results oracle).1 ≤ (s_results.length : Int) - 1 ∧
    ((∀ k i, (oracle k).bind pyParseInt = some i → 0 ≤ i) →
      0 ≤ (best_search_results s_results oracle).1) ∧
    (∀ oracle2 : Nat → Option String, best_search_results [] oracle2 = (0, 0)) := by
  have hlen : 1 ≤ s_results.length := by
    cases s_results with
    | nil => exact absurd rfl hne
    | cons a l => simp
  refine ⟨?_, ?_, ?_⟩
  · simp only [best_search_results, if_neg hne]
    exact bestLoop_le s_results.length oracle hlen 3 0
  · intro hpos
    simp only [best_search_results, if_neg hne]
    exact bestLoop_nonneg s_results.length oracle hlen hpos 3 0
  · intro oracle2
    simp [best_search_results]

/-- C1 witness: the amended clamp instantiated at a concrete one-candidate
list with a model reply of `"7"`. -/
theorem C1_clamp_witness :
    (best_search_results [demoCand] (fun _ => some "7")).1 ≤
      ((List.length [demoCand] : Int)) - 1 ∧
    ((∀ k i, ((fun _ : Nat => some "7") k : Option String).bind pyParseInt = some i → 0 ≤ i) →
      0 ≤ (best_search_results [demoCand] (fun _ => some "7")).1) ∧
    (∀ oracle2 : Nat → Option String, best_search_results [] oracle2 = (0, 0)) :=
  C1_clamp [demoCand] (fun _ => some "7") (by decide)

/-- C6: `check_search_or_not` answers true exactly when the lower-cased reply
text contains the substring `"true"` (so the match is case-insensitive on the
raw reply), a call failure yields false, and `contain_data_needed` applies
the identical parsing and failure rule to every reply. -/
theorem C6_parse_rule :
    (∀ s : String, check_search_or_not (some s) = true ↔
      "true".toList <:+: (pyLower s).toList) ∧
    check_search_or_not none = false ∧
    (∀ reply : Option String, contain_data_needed reply = check_search_or_not reply) := by
  refine ⟨fun s => ?_, rfl, fun reply => ?_⟩
  · simp [check_search_or_not, pyInStr]
  · cases reply <;> rfl

/-- C6 witness: the parse rule evaluated on the spec's sample replies
`"True."`, `"TRUE"`, `"true, because..."` and `"false"`, and agreement of the
two judges on a sample reply. -/
theorem C6_parse_rule_witness :
    check_search_or_not (some "True.") = true ∧
    check_search_or_not (some "TRUE") = true ∧
    check_search_or_not (some "true, because...") = true ∧
    check_search_or_not (some "false") = false ∧
    contain_data_needed (some "TRUE") = check_search_or_not (some "TRUE") :=
  ⟨(C6_parse_rule.1 "True.").mpr (by decide),
   (C6_parse_rule.1 "TRUE").mpr (by decide),
   (C6_parse_rule.1 "true, because...").mpr (by decide),
   by decide,
   C6_parse_rule.2.2 (some "TRUE")⟩

/-- C8: the search query computed by `ai_search` — the `query_generator`
result, or on a failed call the raw latest user content, with
`.replace('"', '')` applied — contains no literal double-quote character,
for every model reply and every fallback text. -/
theorem C8_no_quotes (lastContent : String) (reply : Option String) :
    '"' ∉ (aiSearchQuery lastContent reply).toList := by
  cases reply <;>
    simp [aiSearchQuery, stripQuotes, query_generator, String.toList]

/-- C8 witness: the quote-free property evaluated on a reply that is wrapped
in double quotes and contains an inner quoted phrase. -/
theorem C8_no_quotes_witness :
    '"' ∉ (aiSearchQuery "capital of France" (some "\"\"Paris\" capital\"")).toList :=
  C8_no_quotes "capital of France" (some "\"\"Paris\" capital\"")

/-- One `div.result` block of the parsed DuckDuckGo page, as
`search_duckduckgo` inspects it: the `href` of its `a.result__a` tag when
that tag is present, and the text of its `a.result__snippet` tag when
present. -/
structure ResultDiv where
  titleLink : Option String
  snippet : Option String
deriving DecidableEq, Repr

/-- The result-building loop of `search_duckduckgo` (src/search_agent.py
lines 135-151).  `i` is the `enumerate` counter, which counts ALL blocks;
the loop breaks once `i ≥ 10`; a block without a title link is skipped by
`continue` (the counter still advances); otherwise a candidate with
`id = i` is appended, its description the stripped snippet text or the
fixed fallback. -/
def duckLoop : List ResultDiv → Nat → List Candidate
  | [], _ => []
  | d :: rest, i =>
    if 10 ≤ i then []
    else
      match d.titleLink with
      | none => duckLoop rest (i + 1)
      | some link =>
        ⟨i, link,
          match d.snippet with
          | some s => pyStrip s
          | none => "No description available"⟩ :: duckLoop rest (i + 1)

/-- `search_duckduckgo` (src/search_agent.py lines 113-157) as a function of
the fetched and parsed result blocks; `none` models a request or parse
failure, which the surrounding `except` turns into the empty list. -/
def search_duckduckgo (fetched : Option (List ResultDiv)) : List Candidate :=
  match fetched with
  | none => []
  | some divs => duckLoop divs 0

theorem duckLoop_length (divs : List ResultDiv) :
    ∀ i, (duckLoop divs i).length ≤ 10 - i := by
  induction divs with
  | nil => intro i; simp [duckLoop]
  | cons d rest ih =>
    intro i
    simp only [duckLoop]
    by_cases h : 10 ≤ i
    · simp [h]
    · rw [if_neg h]
      cases hd : d.titleLink with
      | none => exact le_trans (ih (i + 1)) (by omega)
      | some link =>
        simp only [List.length_cons]
        have := ih (i + 1)
        omega

theorem duckLoop_id (divs : List ResultDiv) :
    ∀ i c, c ∈ duckLoop divs i → i ≤ c.id ∧ c.id < 10 ∧
      ∃ d, divs.get? (c.id - i) = some d ∧ d.titleLink = some c.link := by
  induction divs with
  | nil => intro i c hc; simp [duckLoop] at hc
  | cons d rest ih =>
    intro i c hc
    simp only [duckLoop] at hc
    by_cases h : 10 ≤ i
    · simp [h] at hc
    · rw [if_neg h] at hc
      cases hd : d.titleLink with
      | none =>
        rw [hd] at hc
        obtain ⟨h1, h2, e, he, hl⟩ := ih (i + 1) c hc
        refine ⟨by omega, h2, e, ?_, hl⟩
        have hstep : c.id - i = (c.id - (i + 1)) + 1 := by omega
        rw [hstep]
        simpa using he
      | some link =>
        rw [hd] at hc
        rw [List.mem_cons] at hc
        rcases hc with rfl | hc
        · refine ⟨le_refl _, ?_, d, ?_, hd⟩
          · show i < 10
            omega
          · show (d :: rest).get? (i - i) = some d
            simp
        · obtain ⟨h1, h2, e, he, hl⟩ := ih (i + 1) c hc
          refine ⟨by omega, h2, e, ?_, hl⟩
          have hstep : c.id - i = (c.id - (i + 1)) + 1 := by omega
          rw [hstep]
          simpa using he

/-- C7 counterexample: with two parsed blocks of which the first lacks a
result link, the single returned candidate carries id 1 even though its rank
is 0, so a skipped entry does consume an index number; and with one link-less
block followed by ten linked blocks only 9 candidates are returned, so a
skipped entry also consumes one of the 10 examined slots.  This refutes the
claim that skipped entries consume neither a slot nor an index. -/
theorem C7_counterexample :
    (search_duckduckgo
        (some [⟨none, none⟩, ⟨some "https://a", none⟩])).map Candidate.id = [1] ∧
    ¬ ((search_duckduckgo
        (some [⟨none, none⟩, ⟨some "https://a", none⟩])).map Candidate.id = [0]) ∧
    (search_duckduckgo
        (some (⟨none, none⟩ :: List.replicate 10 ⟨some "https://a", none⟩))).length = 9 := by
  refine ⟨by decide, by decide, by decide⟩

/-- C7 (amended): `search_duckduckgo` returns at most 10 candidates; each
candidate's id is its 0-based position among ALL parsed result blocks — a
block lacking a result link is skipped but still consumes an index number
and counts toward the 10-block examination limit — the id is below 10 and
points back at the block whose link the candidate carries; on request or
parse failure the function returns the empty list. -/
theorem C7_truncation (fetched : Option (List ResultDiv)) :
    (search_duckduckgo fetched).length ≤ 10 ∧
    (∀ divs, fetched = some divs → ∀ c ∈ search_duckduckgo fetched, c.id < 10 ∧
      ∃ d, divs.get? c.id = some d ∧ d.titleLink = some c.link) ∧
    search_duckduckgo none = [] := by
  refine ⟨?_, ?_, rfl⟩
  · cases fetched with
    | none => simp [search_duckduckgo]
    | some divs =>
      have := duckLoop_length divs 0
      simpa [search_duckduckgo] using this
  · rintro divs rfl c hc
    obtain ⟨h1, h2, d, hd, hl⟩ :=
      duckLoop_id divs 0 c (by simpa [search_duckduckgo] using hc)
    exact ⟨h2, d, by simpa using hd, hl⟩

/-- C7 witness: the amended statement instantiated at a single linked
block. -/
theorem C7_truncation_witness :
    (search_duckduckgo (some [(⟨some "https://a", none⟩ : ResultDiv)])).length ≤ 10 ∧
    (∀ divs, (some [(⟨some "https://a", none⟩ : ResultDiv)] :
        Option (List ResultDiv)) = some divs →
      ∀ c ∈ search_duckduckgo (some [(⟨some "https://a", none⟩ : ResultDiv)]),
        c.id < 10 ∧ ∃ d, divs.get? c.id = some d ∧ d.titleLink = some c.link) ∧
    search_duckduckgo none = [] :=
  C7_truncation (some [⟨some "https://a", none⟩])

/-- Normalize a Python list index (which may be negative) for a list of
length `n`: `some j` is the effective 0-based position, `none` models the
`IndexError` raised when the index is out of range. -/
def pyIndex (n : Nat) (i : Int) : Option Nat :=
  if 0 ≤ i then
    if i < (n : Int) then some i.toNat else none
  else
    if 0 ≤ i + (n : Int) then some (i + (n : Int)).toNat else none

/-- What one executed iteration of the `ai_search` retry loop did: the
candidate-list length before and after, whether the defensive index check
fired (`continue`), whether the indexing raised (aborting the whole search
via the outer `except`), whether relevant content was found, and how many
selection chat calls, page fetches and validation chat calls the iteration
performed. -/
structure StepInfo where
  lenBefore : Nat
  lenAfter : Nat
  guardSkip : Bool
  exc : Bool
  found : Bool
  selCalls : Nat
  fetchCalls : Nat
  validCalls : Nat
deriving DecidableEq, Repr

/-- The observable result of one `ai_search` run: the returned value
(`some text` for found content, `none` for the NotFound return), the
candidate list left when the run ended, and the per-iteration trace. -/
structure RunResult where
  outcome : Option String
  finalCandidates : List Candidate
  steps : List StepInfo
deriving DecidableEq, Repr

/-- The oracles of one `ai_search` run: the chat reply of `query_generator`,
the fetched and parsed DuckDuckGo page, the chat replies of
`best_search_results` (`sel a k` is the reply of try `k` during attempt `a`),
the scrape result of attempt `a`, and the chat reply of
`contain_data_needed` at attempt `a`. -/
structure SearchOracles where
  queryReply : Option String
  fetched : Option (List ResultDiv)
  sel : Nat → Nat → Option String
  fetch : Nat → Option String
  valid : Nat → Option String

/-- Python truthiness of the scraped page text combined with the relevance
judgment (src/search_agent.py line 238): `page_text and
contain_data_needed(...)`.  A `None` or empty page text is falsy and
short-circuits, so the validator is not called. -/
def attemptRelevant (pt : Option String) (validReply : Option String) : Bool :=
  match pt with
  | none => false
  | some s => if s = "" then false else contain_data_needed validReply

/-- Number of validation chat calls one attempt makes: 1 exactly when the
page text is truthy. -/
def attemptValidCalls (pt : Option String) : Nat :=
  match pt with
  | none => 0
  | some s => if s = "" then 0 else 1

/-- The retry loop of `ai_search` (src/search_agent.py lines 226-245).
Arguments: remaining iterations, attempt index, current candidate list,
and the reversed accumulated trace.  Each iteration selects an index via
`best_search_results`; if the index passes the defensive check it is
normalized Python-style (an out-of-range negative index raises, which the
outer `except` of `ai_search` converts to a `None` return); the page is
scraped and validated; found content returns immediately; otherwise the
candidate at the selected index is popped and the next iteration runs. -/
def aiSearchLoop (o : SearchOracles) :
    Nat → Nat → List Candidate → List StepInfo → RunResult
  | 0, _, cs, acc => ⟨none, cs, acc.reverse⟩
  | n + 1, a, cs, acc =>
    if (cs.length : Int) ≤ (best_search_results cs (o.sel a)).1 then
      aiSearchLoop o n (a + 1) cs
        (⟨cs.length, cs.length, true, false, false,
          (best_search_results cs (o.sel a)).2, 0, 0⟩ :: acc)
    else
      match pyIndex cs.length (best_search_results cs (o.sel a)).1 with
      | none =>
        ⟨none, cs,
          (⟨cs.length, cs.length, false, true, false,
            (best_search_results cs (o.sel a)).2, 0, 0⟩ :: acc).reverse⟩
      | some j =>
        if attemptRelevant (o.fetch a) (o.valid a) then
          ⟨o.fetch a, cs,
            (⟨cs.length, cs.length, false, false, true,
              (best_search_results cs (o.sel a)).2, 1,
              attemptValidCalls (o.fetch a)⟩ :: acc).reverse⟩
        else
          aiSearchLoop o n (a + 1) (cs.eraseIdx j)
            (⟨cs.length, (cs.eraseIdx j).length, false, false, false,
              (best_search_results cs (o.sel a)).2, 1,
              attemptValidCalls (o.fetch a)⟩ :: acc)

/-- `ai_search` (src/search_agent.py lines 208-249): generate a query (the
string `aiSearchQuery` models it; the oracles are understood as the effects
of the run made with that query), search DuckDuckGo, return `None`
immediately on an empty result, and otherwise run up to 5 iterations of the
retry loop. -/
def ai_search (o : SearchOracles) : RunResult :=
  if search_duckduckgo o.fetched = [] then ⟨none, [], []⟩
  else aiSearchLoop o 5 0 (search_duckduckgo o.fetched) []

/-- Total chat calls made after the search result arrived (selection plus
validation calls of all executed iterations). -/
def postSearchChatCalls (r : RunResult) : Nat :=
  r.steps.foldl (fun acc s => acc + s.selCalls + s.validCalls) 0

/-- Total page-fetch calls of a run. -/
def fetchCallsOf (r : RunResult) : Nat :=
  r.steps.foldl (fun acc s => acc + s.fetchCalls) 0

/-- Concrete oracles: one linked search result, selection always replies
`"0"`, the page scrapes to non-empty text, the validator always replies
`"False"`. -/
def oOneCand : SearchOracles :=
  ⟨some "q", some [⟨some "https://a", some "snippet"⟩],
   fun _ _ => some "0", fun _ => some "page text", fun _ => some "False"⟩

/-- Concrete oracles whose search request fails. -/
def oEmpty : SearchOracles :=
  ⟨some "q", none, fun _ _ => none, fun _ => none, fun _ => none⟩

/-- The length bookkeeping one executed iteration is supposed to obey: the
list never grows; a guard skip happens only on an already-empty list and
leaves it empty; a failed attempt with a valid index pops exactly one
candidate; a guard skip, an indexing exception and a successful attempt
leave the list unchanged. -/
def stepOK (s : StepInfo) : Prop :=
  s.lenAfter ≤ s.lenBefore ∧
  (s.guardSkip = true → s.lenBefore = 0 ∧ s.lenAfter = 0) ∧
  (s.guardSkip = false → s.exc = false → s.found = false →
    s.lenAfter + 1 = s.lenBefore) ∧
  ((s.guardSkip = true ∨ s.exc = true ∨ s.found = true) →
    s.lenAfter = s.lenBefore)

theorem pyIndex_lt (n : Nat) (i : Int) (j : Nat) (h : pyIndex n i = some j) :
    j < n := by
  unfold pyIndex at h
  split_ifs at h with h1 h2 h3 <;> simp_all <;> omega

theorem best_nonempty_lt (cs : List Candidate) (oracle : Nat → Option String)
    (hne : cs ≠ []) :
    (best_search_results cs oracle).1 < (cs.length : Int) := by
  have hlen : 1 ≤ cs.length := by
    cases cs with
    | nil => exact absurd rfl hne
    | cons a l => simp
  have h := bestLoop_le cs.length oracle hlen 3 0
  simp only [best_search_results, if_neg hne]
  omega

theorem aiSearchLoop_steps (o : SearchOracles) :
    ∀ n a cs acc, ∃ new,
      (aiSearchLoop o n a cs acc).steps = acc.reverse ++ new ∧
      new.length ≤ n ∧
      (∀ s ∈ new, stepOK s) ∧
      (aiSearchLoop o n a cs acc).finalCandidates.length ≤ cs.length := by
  intro n
  induction n with
  | zero =>
    intro a cs acc
    exact ⟨[], by simp [aiSearchLoop], by simp, by simp, le_refl _⟩
  | succ m ih =>
    intro a cs acc
    by_cases hg : (cs.length : Int) ≤ (best_search_results cs (o.sel a)).1
    · have hcs0 : cs.length = 0 := by
        rcases eq_or_ne cs [] with hnil | hne
        · simp [hnil]
        · exact absurd hg (not_le.mpr (best_nonempty_lt cs (o.sel a) hne))
      simp only [aiSearchLoop, if_pos hg]
      obtain ⟨new, hsteps, hlen, hok, hfin⟩ := ih (a + 1) cs
        (⟨cs.length, cs.length, true, false, false,
          (best_search_results cs (o.sel a)).2, 0, 0⟩ :: acc)
      refine ⟨⟨cs.length, cs.length, true, false, false,
          (best_search_results cs (o.sel a)).2, 0, 0⟩ :: new, ?_,
        by simp only [List.length_cons]; omega, ?_, hfin⟩
      · rw [hsteps]
        simp
      · intro s hs
        rcases List.mem_cons.mp hs with rfl | hs
        · exact ⟨le_refl _, fun _ => ⟨hcs0, hcs0⟩, by simp, fun _ => rfl⟩
        · exact hok s hs
    · simp only [aiSearchLoop, if_neg hg]
      cases hpi : pyIndex cs.length (best_search_results cs (o.sel a)).1 with
      | none =>
        refine ⟨[⟨cs.length, cs.length, false, true, false,
            (best_search_results cs (o.sel a)).2, 0, 0⟩], by simp, by simp, ?_, le_refl _⟩
        intro s hs
        rcases List.mem_singleton.mp hs with rfl
        exact ⟨le_refl _, by simp, by simp, fun _ => rfl⟩
      | some j =>
        have hj : j < cs.length := pyIndex_lt cs.length _ j hpi
        dsimp only
        by_cases hrel : attemptRelevant (o.fetch a) (o.valid a) = true
        · rw [if_pos hrel]
          refine ⟨[⟨cs.length, cs.length, false, false, true,
              (best_search_results cs (o.sel a)).2, 1,
              attemptValidCalls (o.fetch a)⟩], by simp, by simp, ?_, le_refl _⟩
          intro s hs
          rcases List.mem_singleton.mp hs with rfl
          exact ⟨le_refl _, by simp, by simp, fun _ => rfl⟩
        · rw [if_neg hrel]
          have herase : (cs.eraseIdx j).length + 1 = cs.length := by
            rw [List.length_eraseIdx]
            simp only [hj, if_pos]
            omega
          obtain ⟨new, hsteps, hlen, hok, hfin⟩ := ih (a + 1) (cs.eraseIdx j)
            (⟨cs.length, (cs.eraseIdx j).length, false, false, false,
              (best_search_results cs (o.sel a)).2, 1,
              attemptValidCalls (o.fetch a)⟩ :: acc)
          refine ⟨⟨cs.length, (cs.eraseIdx j).length, false, false, false,
              (best_search_results cs (o.sel a)).2, 1,
              attemptValidCalls (o.fetch a)⟩ :: new, ?_,
            by simp only [List.length_cons]; omega, ?_, by omega⟩
          · rw [hsteps]
            simp
          · intro s hs
            rcases List.mem_cons.mp hs with rfl | hs
            · refine ⟨?_, by simp, fun _ _ _ => herase, by simp⟩
              show (cs.eraseIdx j).length ≤ cs.length
              omega
            · exact hok s hs

/-- C2 counterexample: a concrete run with one candidate whose page is judged
irrelevant: the first attempt pops the only candidate and the remaining four
iterations fire the defensive check on the emptied list without removing
anything, so not every failed attempt strictly decreases the candidate count
by one. -/
theorem C2_counterexample :
    ¬ (((ai_search oOneCand).steps.length ≤ 5) ∧
       ((ai_search oOneCand).finalCandidates.length ≤
         (search_duckduckgo oOneCand.fetched).length) ∧
       (∀ s ∈ (ai_search oOneCand).steps,
         s.found = false → s.lenAfter + 1 = s.lenBefore)) := by
  decide

/-- C2 (amended): every run of `ai_search` executes at most 5 iterations of
the retry loop and the candidate list never grows; a failed attempt whose
selected index is valid removes exactly one candidate, while a guard-skipped
iteration — which only happens once the list is already empty — and an
iteration aborted by an out-of-range negative index leave the count
unchanged. -/
theorem C2_attempts (o : SearchOracles) :
    (ai_search o).steps.length ≤ 5 ∧
    (ai_search o).finalCandidates.length ≤ (search_duckduckgo o.fetched).length ∧
    (∀ s ∈ (ai_search o).steps, stepOK s) := by
  unfold ai_search
  by_cases h : search_duckduckgo o.fetched = []
  · simp [h]
  · rw [if_neg h]
    obtain ⟨new, hsteps, hlen, hok, hfin⟩ :=
      aiSearchLoop_steps o 5 0 (search_duckduckgo o.fetched) []
    rw [hsteps]
    simp only [List.reverse_nil, List.nil_append]
    exact ⟨hlen, hfin, hok⟩

/-- C2 witness: the amended statement instantiated at the concrete
one-candidate run. -/
theorem C2_attempts_witness :
    (ai_search oOneCand).steps.length ≤ 5 ∧
    (ai_search oOneCand).finalCandidates.length ≤
      (search_duckduckgo oOneCand.fetched).length ∧
    (∀ s ∈ (ai_search oOneCand).steps, stepOK s) :=
  C2_attempts oOneCand

/-- C9: if `search_duckduckgo` returns the empty list, `ai_search` returns
`None` (NotFound) at once: the retry loop never starts, so after the search
result arrives no selection or validation model call and no page fetch is
performed. -/
theorem C9_empty_search (o : SearchOracles)
    (h : search_duckduckgo o.fetched = []) :
    (ai_search o).outcome = none ∧ (ai_search o).steps = [] ∧
    postSearchChatCalls (ai_search o) = 0 ∧ fetchCallsOf (ai_search o) = 0 := by
  simp [ai_search, h, postSearchChatCalls, fetchCallsOf]

/-- C9 witness: an oracle whose search request fails yields the empty
candidate list, and the claim instantiates there. -/
theorem C9_empty_search_witness :
    (ai_search oEmpty).outcome = none ∧ (ai_search oEmpty).steps = [] ∧
    postSearchChatCalls (ai_search oEmpty) = 0 ∧ fetchCallsOf (ai_search oEmpty) = 0 :=
  C9_empty_search oEmpty rfl

theorem filter_split_length (l : List StepInfo) (p : StepInfo → Bool) :
    (l.filter (fun s => p s)).length + (l.filter (fun s => !p s)).length = l.length := by
  induction l with
  | nil => simp
  | cons a l ih =>
    by_cases h : p a = true <;> simp [List.filter_cons, h] <;> omega

/-- C4 counterexample: in the concrete one-candidate run the defensive check
fires on iterations 2 through 5; the trace has exactly 5 entries of which 4
are guard skips and only 1 is a working attempt, and the loop did not run
5 + 4 iterations — so a guard-triggered skip does consume one of the 5
retries and reduces the attempts available for actual select/fetch/validate
work. -/
theorem C4_counterexample :
    ((ai_search oOneCand).steps.length = 5 ∧
     ((ai_search oOneCand).steps.filter (fun s => s.guardSkip)).length = 4 ∧
     ((ai_search oOneCand).steps.filter (fun s => !s.guardSkip)).length = 1) ∧
    ¬ ((ai_search oOneCand).steps.length =
        5 + ((ai_search oOneCand).steps.filter (fun s => s.guardSkip)).length) := by
  decide

/-- C4 (amended): a guard-triggered skip does consume one of the 5 loop
iterations: skipped and working iterations together form the executed trace,
whose total length never exceeds 5; moreover the defensive check only ever
fires once the candidate list has already been emptied, so no attempt on a
remaining candidate is ever lost to it. -/
theorem C4_guard_consumes (o : SearchOracles) :
    ((ai_search o).steps.filter (fun s => s.guardSkip)).length +
      ((ai_search o).steps.filter (fun s => !s.guardSkip)).length =
      (ai_search o).steps.length ∧
    (ai_search o).steps.length ≤ 5 ∧
    (∀ s ∈ (ai_search o).steps, s.guardSkip = true →
      s.lenBefore = 0 ∧ s.lenAfter = 0) := by
  refine ⟨filter_split_length _ _, ?_, ?_⟩
  · unfold ai_search
    by_cases h : search_duckduckgo o.fetched = []
    · simp [h]
    · rw [if_neg h]
      obtain ⟨new, hsteps, hlen, hok, hfin⟩ :=
        aiSearchLoop_steps o 5 0 (search_duckduckgo o.fetched) []
      rw [hsteps]
      simpa using hlen
  · intro s hs hskip
    unfold ai_search at hs
    by_cases h : search_duckduckgo o.fetched = []
    · simp [h] at hs
    · rw [if_neg h] at hs
      obtain ⟨new, hsteps, hlen, hok, hfin⟩ :=
        aiSearchLoop_steps o 5 0 (search_duckduckgo o.fetched) []
      rw [hsteps] at hs
      simp only [List.reverse_nil, List.nil_append] at hs
      exact (hok s hs).2.1 hskip

/-- C4 witness: the amended statement instantiated at the concrete
one-candidate run. -/
theorem C4_guard_consumes_witness :
    ((ai_search oOneCand).steps.filter (fun s => s.guardSkip)).length +
      ((ai_search oOneCand).steps.filter (fun s => !s.guardSkip)).length =
      (ai_search oOneCand).steps.length ∧
    (ai_search oOneCand).steps.length ≤ 5 ∧
    (∀ s ∈ (ai_search oOneCand).steps, s.guardSkip = true →
      s.lenBefore = 0 ∧ s.lenAfter = 0) :=
  C4_guard_consumes oOneCand

/-- The trace entry of a loop iteration that runs on an emptied candidate
list: the selection returns 0 without a chat call and the defensive check
fires. -/
def skipStep : StepInfo := ⟨0, 0, true, false, false, 0, 0, 0⟩

theorem aiSearchLoop_nil (o : SearchOracles) :
    ∀ n a acc, aiSearchLoop o n a [] acc =
      ⟨none, [], acc.reverse ++ List.replicate n skipStep⟩ := by
  intro n
  induction n with
  | zero =>
    intro a acc
    simp [aiSearchLoop]
  | succ m ih =>
    intro a acc
    have hg : ((([] : List Candidate).length) : Int) ≤
        (best_search_results [] (o.sel a)).1 := by
      simp [best_search_results]
    simp only [aiSearchLoop, if_pos hg]
    have hstep : (⟨([] : List Candidate).length, ([] : List Candidate).length, true,
        false, false, (best_search_results ([] : List Candidate) (o.sel a)).2, 0, 0⟩ :
        StepInfo) = skipStep := rfl
    rw [hstep, ih (a + 1) (skipStep :: acc)]
    simp [List.replicate_succ]

theorem attemptRelevant_false (pt vr : Option String)
    (h : contain_data_needed vr = false) : attemptRelevant pt vr = false := by
  cases pt with
  | none => rfl
  | some s =>
    by_cases hs : s = ""
    · simp [attemptRelevant, hs]
    · simp [attemptRelevant, hs, h]

theorem aiSearchLoop_work (o : SearchOracles) (n a : Nat) (cs : List Candidate)
    (acc : List StepInfo) (hne : cs ≠ [])
    (hsel : ∀ k i, (o.sel a k).bind pyParseInt = some i → 0 ≤ i)
    (hval : contain_data_needed (o.valid a) = false) :
    ∃ j, j < cs.length ∧
      aiSearchLoop o (n + 1) a cs acc =
        aiSearchLoop o n (a + 1) (cs.eraseIdx j)
          (⟨cs.length, (cs.eraseIdx j).length, false, false, false,
            (best_search_results cs (o.sel a)).2, 1,
            attemptValidCalls (o.fetch a)⟩ :: acc) := by
  have hlen : 1 ≤ cs.length := by
    cases cs with
    | nil => exact absurd rfl hne
    | cons x l => simp
  have h0 : 0 ≤ (best_search_results cs (o.sel a)).1 := by
    simp only [best_search_results, if_neg hne]
    exact bestLoop_nonneg cs.length (o.sel a) hlen hsel 3 0
  have h1 : (best_search_results cs (o.sel a)).1 < (cs.length : Int) :=
    best_nonempty_lt cs (o.sel a) hne
  have hg : ¬ ((cs.length : Int) ≤ (best_search_results cs (o.sel a)).1) := by omega
  have hpi : pyIndex cs.length (best_search_results cs (o.sel a)).1 =
      some (best_search_results cs (o.sel a)).1.toNat := by
    unfold pyIndex
    rw [if_pos h0, if_pos h1]
  refine ⟨(best_search_results cs (o.sel a)).1.toNat, by omega, ?_⟩
  simp only [aiSearchLoop, if_neg hg, hpi]
  rw [if_neg (by simp [attemptRelevant_false (o.fetch a) (o.valid a) hval])]

/-- Concrete oracles: three linked search results, selection always replies
`"0"`, every page scrapes to non-empty text, the validator always replies
`"False"`. -/
def oThreeCand : SearchOracles :=
  ⟨some "q",
   some [⟨some "https://a", none⟩, ⟨some "https://b", none⟩, ⟨some "https://c", none⟩],
   fun _ _ => some "0", fun _ => some "page text", fun _ => some "False"⟩

/-- C3 counterexample: in the concrete three-candidate run with every
relevance judgment false, the three removals do empty the list and `None`
is returned — but only after the loop has executed all 5 iterations (the 4th
and 5th as guard skips), so NotFound is not returned before reaching a 4th
attempt. -/
theorem C3_counterexample :
    (ai_search oThreeCand).outcome = none ∧
    (ai_search oThreeCand).finalCandidates = [] ∧
    (ai_search oThreeCand).steps.length = 5 ∧
    ¬ ((ai_search oThreeCand).steps.length < 4) := by
  decide

/-- C3 (amended): if the search yields exactly 3 candidates, every selection
reply that parses yields a non-negative integer, and every relevance
judgment is false, then the first 3 attempts each remove one candidate and
empty the list, and `ai_search` returns NotFound — but the 4th and 5th loop
iterations still execute, each firing the defensive guard on the empty list
and performing no fetch, no validation call and no removal. -/
theorem C3_three_candidates (o : SearchOracles)
    (h3 : (search_duckduckgo o.fetched).length = 3)
    (hsel : ∀ a k i, (o.sel a k).bind pyParseInt = some i → 0 ≤ i)
    (hval : ∀ a, contain_data_needed (o.valid a) = false) :
    (ai_search o).outcome = none ∧
    (ai_search o).finalCandidates = [] ∧
    (ai_search o).steps.length = 5 ∧
    (∀ s ∈ (ai_search o).steps.drop 3, s = skipStep) := by
  have hne : search_duckduckgo o.fetched ≠ [] := by
    intro h
    rw [h] at h3
    simp at h3
  unfold ai_search
  rw [if_neg hne]
  obtain ⟨j1, hlt1, e1⟩ :=
    aiSearchLoop_work o 4 0 (search_duckduckgo o.fetched) [] hne (hsel 0) (hval 0)
  rw [e1]
  have len1 : ((search_duckduckgo o.fetched).eraseIdx j1).length = 2 := by
    rw [List.length_eraseIdx]
    rw [if_pos hlt1]
    omega
  have hne1 : (search_duckduckgo o.fetched).eraseIdx j1 ≠ [] := by
    intro h
    rw [h] at len1
    simp at len1
  obtain ⟨j2, hlt2, e2⟩ :=
    aiSearchLoop_work o 3 1 ((search_duckduckgo o.fetched).eraseIdx j1) _
      hne1 (hsel 1) (hval 1)
  rw [e2]
  have len2 : (((search_duckduckgo o.fetched).eraseIdx j1).eraseIdx j2).length = 1 := by
    rw [List.length_eraseIdx]
    rw [if_pos hlt2]
    omega
  have hne2 : ((search_duckduckgo o.fetched).eraseIdx j1).eraseIdx j2 ≠ [] := by
    intro h
    rw [h] at len2
    simp at len2
  obtain ⟨j3, hlt3, e3⟩ :=
    aiSearchLoop_work o 2 2 (((search_duckduckgo o.fetched).eraseIdx j1).eraseIdx j2) _
      hne2 (hsel 2) (hval 2)
  rw [e3]
  have len3 : ((((search_duckduckgo o.fetched).eraseIdx j1).eraseIdx j2).eraseIdx j3).length
      = 0 := by
    rw [List.length_eraseIdx]
    rw [if_pos hlt3]
    omega
  have hnil3 : (((search_duckduckgo o.fetched).eraseIdx j1).eraseIdx j2).eraseIdx j3 = [] :=
    List.length_eq_zero.mp len3
  rw [hnil3, aiSearchLoop_nil o 2 3 _]
  refine ⟨rfl, rfl, by simp, ?_⟩
  intro s hs
  simp only [List.reverse_cons, List.reverse_nil, List.nil_append, List.append_assoc,
    List.singleton_append, List.drop_succ_cons, List.drop_zero] at hs
  exact List.eq_of_mem_replicate hs

/-- C3 witness: the amended statement instantiated at the concrete
three-candidate run. -/
theorem C3_three_candidates_witness :
    (ai_search oThreeCand).outcome = none ∧
    (ai_search oThreeCand).finalCandidates = [] ∧
    (ai_search oThreeCand).steps.length = 5 ∧
    (∀ s ∈ (ai_search oThreeCand).steps.drop 3, s = skipStep) :=
  C3_three_candidates oThreeCand (by decide)
    (by
      intro a k i h
      have h0 : (oThreeCand.sel a k).bind pyParseInt = some 0 := rfl
      rw [h0] at h
      injection h with h2
      omega)
    (by
      intro a
      show contain_data_needed (some "False") = false
      decide)

/-- A conversation message, a Python dict `{'role': ..., 'content': ...}`. -/
structure Message where
  role : String
  content : String
deriving DecidableEq, Repr

/-- `sys_msgs.SEARCH_FAILURE_PROMPT_TEMPLATE` (src/sys_msgs.py lines 77-84)
with `{prompt}` substituted, as `main` builds it on a failed search. -/
def searchFailurePrompt (prompt : String) : String :=
  "USER PROMPT: \n" ++ prompt ++
    " \n\nFAILED SEARCH: \nThe AI search model was unable to extract any reliable data. Explain that and ask if the user would like you to search again or respond without web search context. Do not respond if a search was needed and you are getting this message with anything but the above request of how the user would like to proceed"

/-- The f-string of src/search_agent.py line 316: the single user message
embedding both the retrieved context and the original prompt. -/
def searchResultPrompt (context prompt : String) : String :=
  "SEARCH_RESULT: " ++ context ++ " \nUSER_PROMPT: " ++ prompt

/-- The replacement prompt `main` builds after a search (lines 315-318):
the embedding message on found context, the failure template otherwise. -/
def mainAugmentedPrompt (prompt : String) (context : Option String) : String :=
  match context with
  | some ctx => searchResultPrompt ctx prompt
  | none => searchFailurePrompt prompt

/-- The oracles of one main-loop iteration: the chat reply of
`check_search_or_not`, the oracles of the `ai_search` run, and the
accumulated text of the streamed assistant reply (`none` models a streaming
failure, after which nothing is appended). -/
structure MainOracles where
  decisionReply : Option String
  searchO : SearchOracles
  streamReply : Option String

/-- `stream_assistant_response` (src/search_agent.py lines 275-294) effect on
the conversation: append the accumulated assistant message on success,
append nothing on failure. -/
def streamAppend (convo : List Message) (reply : Option String) : List Message :=
  match reply with
  | some r => convo ++ [⟨"assistant", r⟩]
  | none => convo

/-- The observable result of one main-loop iteration: the final
conversation, the conversation as it stood while `ai_search` ran (`none`
when no search ran), the conversation just before the streamed reply, and
the number of model calls and outbound network requests the iteration
made. -/
structure MainResult where
  convo : List Message
  convoAtRetrieval : Option (List Message)
  convoBeforeReply : List Message
  modelCalls : Nat
  networkCalls : Nat
deriving DecidableEq, Repr

/-- One iteration of the interactive loop body of `main`
(src/search_agent.py lines 303-322).  A blank prompt (empty after
`strip()`) is skipped before anything happens.  Otherwise the user message
is appended, the search decision is made (one chat call); if it is true,
`ai_search` runs on the conversation still holding the appended user turn
(one query chat call, one search request, plus the loop's calls), then
`assistant_convo.pop()` removes the last message and the augmented or
failure prompt is appended as a single user message; finally the assistant
reply is streamed (one chat call). -/
def mainIteration (convo : List Message) (prompt : String) (o : MainOracles) :
    MainResult :=
  if pyStrip prompt = "" then ⟨convo, none, convo, 0, 0⟩
  else
    if check_search_or_not o.decisionReply then
      { convo := streamAppend ((convo ++ [(⟨"user", prompt⟩ : Message)]).dropLast ++
          [(⟨"user", mainAugmentedPrompt prompt (ai_search o.searchO).outcome⟩ : Message)])
          o.streamReply
        convoAtRetrieval := some (convo ++ [(⟨"user", prompt⟩ : Message)])
        convoBeforeReply := (convo ++ [(⟨"user", prompt⟩ : Message)]).dropLast ++
          [(⟨"user", mainAugmentedPrompt prompt (ai_search o.searchO).outcome⟩ : Message)]
        modelCalls := 1 + 1 + postSearchChatCalls (ai_search o.searchO) + 1
        networkCalls := 1 + fetchCallsOf (ai_search o.searchO) }
    else
      { convo := streamAppend (convo ++ [(⟨"user", prompt⟩ : Message)]) o.streamReply
        convoAtRetrieval := none
        convoBeforeReply := convo ++ [(⟨"user", prompt⟩ : Message)]
        modelCalls := 1 + 1
        networkCalls := 0 }

/-- Concrete main-loop oracles for a run whose search decision is true and
whose single-candidate retrieval succeeds with page text `"PAGE"`. -/
def oMainFound : MainOracles :=
  ⟨some "True",
   ⟨some "q", some [⟨some "https://a", none⟩], fun _ _ => some "0",
    fun _ => some "PAGE", fun _ => some "True"⟩,
   some "streamed reply"⟩

/-- Concrete main-loop oracles used for the blank-input witness. -/
def oMainBlank : MainOracles :=
  ⟨none, oEmpty, none⟩

/-- C5 counterexample: in a concrete successful-search run, the conversation
`ai_search` observes still contains the just-appended user message — the
provisional user turn is removed only after retrieval returns, refuting the
claim that the message is removed before retrieval runs. -/
theorem C5_counterexample :
    (mainIteration [⟨"system", "sys"⟩] "q?" oMainFound).convoAtRetrieval =
      some [⟨"system", "sys"⟩, ⟨"user", "q?"⟩] ∧
    ¬ ((mainIteration [⟨"system", "sys"⟩] "q?" oMainFound).convoAtRetrieval =
        some [⟨"system", "sys"⟩]) := by
  decide

/-- C5 (amended): when the search decision is true for a just-appended user
message, `ai_search` runs first, on the conversation still containing that
provisional user turn; only after retrieval returns is the turn removed, and
if retrieval found text a single user message embedding both the original
prompt and the retrieved text is appended in its place. -/
theorem C5_search_replaces_turn (convo : List Message) (prompt : String)
    (o : MainOracles) (hb : ¬ (pyStrip prompt = ""))
    (hd : check_search_or_not o.decisionReply = true) :
    (mainIteration convo prompt o).convoAtRetrieval =
      some (convo ++ [⟨"user", prompt⟩]) ∧
    (∀ ctx, (ai_search o.searchO).outcome = some ctx →
      (mainIteration convo prompt o).convoBeforeReply =
        convo ++ [⟨"user", searchResultPrompt ctx prompt⟩]) := by
  constructor
  · simp [mainIteration, hb, hd]
  · intro ctx hctx
    simp [mainIteration, hb, hd, hctx, mainAugmentedPrompt, List.dropLast_concat]

/-- C5 witness: the amended statement instantiated at the concrete
successful-search run. -/
theorem C5_search_replaces_turn_witness :
    (mainIteration [⟨"system", "sys"⟩] "q?" oMainFound).convoAtRetrieval =
      some ([⟨"system", "sys"⟩] ++ [⟨"user", "q?"⟩]) ∧
    (∀ ctx, (ai_search oMainFound.searchO).outcome = some ctx →
      (mainIteration [⟨"system", "sys"⟩] "q?" oMainFound).convoBeforeReply =
        [⟨"system", "sys"⟩] ++ [⟨"user", searchResultPrompt ctx "q?"⟩]) :=
  C5_search_replaces_turn [⟨"system", "sys"⟩] "q?" oMainFound
    (by decide) (by decide)

/-- C10: a user input line that is empty or consists only of whitespace
leaves the conversation completely unchanged — no message is appended or
removed, no search runs, and no model call or network request is made; the
loop simply proceeds to the next prompt. -/
theorem C10_blank_input (convo : List Message) (prompt : String) (o : MainOracles)
    (h : ∀ c ∈ prompt.toList, c.isWhitespace = true) :
    mainIteration convo prompt o = ⟨convo, none, convo, 0, 0⟩ := by
  have hstrip : pyStrip prompt = "" := by
    unfold pyStrip stripChars
    rw [List.dropWhile_eq_nil_iff.mpr h]
    rfl
  simp [mainIteration, hstrip]

/-- C10 witness: the blank-input property evaluated on a three-space input
line and a one-message conversation. -/
theorem C10_blank_input_witness :
    mainIteration [⟨"system", "sys"⟩] "   " oMainBlank =
      ⟨[⟨"system", "sys"⟩], none, [⟨"system", "sys"⟩], 0, 0⟩ :=
  C10_blank_input [⟨"system", "sys"⟩] "   " oMainBlank (by decide)

end SearchAgent
